import Mathlib

/-!
Verification development for the Repository Reconnaissance governance core
(`server/analyzer/src`).  Python modules are shallowly embedded as Lean
definitions: dictionaries become structures with optional fields, the file
system becomes an explicit map from paths to lists of lines, rationals stand
in for Python floats, and the SHA-256 digest (an external library call) is
an explicit function parameter, since no property below depends on anything
but its determinism.
-/

set_option autoImplicit false
set_option maxRecDepth 4096

namespace RepoRecon

/-! ## Shared string helpers (Python semantics)

All string manipulation is done by structural recursion over the character
list of the string, so that every definition evaluates inside the kernel. -/

/-- Python `sub in s` substring test. -/
def strContains (s sub : String) : Bool :=
  (List.range (s.toList.length + 1)).any
    (fun i => ((s.toList.drop i).take sub.toList.length) == sub.toList)

/-- Split a character list on a separator character (Python `str.split(sep)`
for a one-character separator; the result is never empty). -/
def splitOnChar (sep : Char) : List Char → List (List Char)
  | [] => [[]]
  | x :: xs =>
    match splitOnChar sep xs with
    | [] => [[]]
    | cur :: rest => if x == sep then [] :: cur :: rest else (x :: cur) :: rest

/-- Python `s.startswith(pre)`. -/
def pyStartsWith (s pre : String) : Bool :=
  pre.toList.isPrefixOf s.toList

/-- Python `s.endswith(suf)`. -/
def pyEndsWith (s suf : String) : Bool :=
  suf.toList.isSuffixOf s.toList

/-- Python `s.lower()` (ASCII case folding, which covers every string the
source applies it to). -/
def lowerStr (s : String) : String :=
  String.mk (s.toList.map Char.toLower)

/-- Python `sep.join(parts)`. -/
def joinWith (sep : String) : List String → String
  | [] => ""
  | [x] => x
  | x :: xs => x ++ sep ++ joinWith sep xs

/-- The numeric value of a digit string (`int(...)` on a `\d+` match). -/
def natOfDigits (l : List Char) : Nat :=
  l.foldl (fun n c => n * 10 + (c.toNat - '0'.toNat)) 0

/-- `os.path.basename` on POSIX: the part after the last `/` of the raw path. -/
def osBasename (path : String) : String :=
  String.mk ((splitOnChar '/' path.toList).getLastD [])

/-- Python whitespace characters recognised by `str.strip()` (ASCII subset). -/
def isPyWs (c : Char) : Bool :=
  c == ' ' || c == '\t' || c == '\n' || c == '\r' || c == '\x0b' || c == '\x0c'

/-- Python `str.strip()`: drop leading and trailing whitespace. -/
def pyStrip (s : String) : String :=
  String.mk (((s.toList.dropWhile isPyWs).reverse.dropWhile isPyWs).reverse)

/-! ## `core/verify_policy.py` -/

def VERIFICATION_TIER_HASH : String := "EVIDENCE_VERIFIED_HASH"

def VERIFICATION_TIER_EXISTENCE : String := "EVIDENCE_VERIFIED_EXISTENCE"

def GENERATED_ARTIFACT_PATTERNS : List String :=
  ["evidence_pack.v1.json", "claims.json", "target_howto.json", "coverage.json",
   "replit_profile.json", "index.json", "DOSSIER.md", "REPORT_ENGINEER.md",
   "REPORT_AUDITOR.md", "REPORT_EXECUTIVE.md", "diff.json", "DIFF_REPORT.md"]

def GENERATED_DIR_MARKERS : List String := ["packs/", "out/"]

/-- `verify_policy.is_generated_artifact`.  The `for marker in ...` loop returns
`True` only when the final component of the normalized path is itself one of the
known generated-artifact file names. -/
def is_generated_artifact (path : String) : Bool :=
  if path == "" then false
  else
    let basename := osBasename path
    if GENERATED_ARTIFACT_PATTERNS.contains basename then true
    else if pyStartsWith basename "REPORT_" && pyEndsWith basename ".md" then true
    else
      let normalized :=
        String.mk (path.toList.map (fun c => if c == '\\' then '/' else c))
      let tail := String.mk ((splitOnChar '/' normalized.toList).getLastD [])
      GENERATED_DIR_MARKERS.any (fun marker =>
        (pyStartsWith normalized marker || strContains normalized ("/" ++ marker)) &&
        GENERATED_ARTIFACT_PATTERNS.contains tail)

/-- An evidence dictionary.  Optional fields model absent dictionary keys
(Python `dict.get` defaults); `line_end` defaults to `line_start` where read. -/
structure Ev where
  kind : Option String := none
  path : String := ""
  line_start : Int := 0
  line_end : Option Int := none
  snippet_hash : String := ""
  snippet_hash_verified : Option Bool := none
  verified : Option Bool := none
  display : String := ""
  deriving Repr, DecidableEq, Inhabited

/-- `verify_policy.evidence_tier`. -/
def evidence_tier (ev : Ev) : String :=
  if is_generated_artifact ev.path then ""
  else if ev.snippet_hash != "" && ev.snippet_hash_verified == some true && ev.path != "" then
    VERIFICATION_TIER_HASH
  else if ev.kind == some "file_exists" && ev.verified == some true then
    if ¬ is_generated_artifact ev.path then VERIFICATION_TIER_EXISTENCE else ""
  else ""

/-- `verify_policy.is_evidence_verified_v1`. -/
def is_evidence_verified_v1 (ev : Ev) : Bool :=
  evidence_tier ev == VERIFICATION_TIER_HASH

/-- A claim dictionary as consumed by the verification policy and adapter. -/
structure Claim where
  id : String := ""
  statement : String := ""
  sectionName : String := ""
  evidence : List Ev := []
  confidence : ℚ := 0
  status : String := ""
  deriving Repr, DecidableEq, Inhabited

/-- `verify_policy.is_verified_claim`. -/
def is_verified_claim (c : Claim) : Bool :=
  c.evidence.any is_evidence_verified_v1

/-- `verify_policy.get_verified_evidence`. -/
def get_verified_evidence (c : Claim) : List Ev :=
  c.evidence.filter is_evidence_verified_v1

/-! ## `core/evidence.py`

`hashlib.sha256(snippet.encode(...)).hexdigest()[:12]` is an external library
call; it is embedded as an explicit function argument `hash : String → String`,
because every property below depends only on it being a deterministic function
of the snippet text. -/

/-- `evidence.make_evidence`.  Returns `none` where the Python function returns
`None` (a line number below 1). -/
def make_evidence (hash : String → String) (path : String) (line_start line_end : Int)
    (snippet : String) : Option Ev :=
  if line_start < 1 || line_end < 1 then none
  else
    some { path := path
           line_start := line_start
           line_end := some line_end
           snippet_hash := hash snippet
           display :=
             if line_start == line_end then path ++ ":" ++ toString line_start
             else path ++ ":" ++ toString line_start ++ "-" ++ toString line_end }

/-! ## `analyzer.py` — evidence re-verification

The repository file system is embedded as `FileSys`: a map from a relative
path to the list of lines of the file, or `none` when `_safe_resolve_path`
fails (missing file, oversized file, binary content, path escape). -/

def FileSys : Type := String → Option (List String)

def MAX_SNIPPET_LINES : Int := 50

/-- `RepoAnalyzer._read_lines_from_repo`: select the 1-based inclusive line
range, clamp the end to the file length, strip each line, and join with
newlines.  `none` models every early `return None` of the source. -/
def read_lines_from_repo (fs : FileSys) (path : String) (line_start line_end : Int) :
    Option String :=
  let line_end := if line_end < line_start then line_start else line_end
  match fs path with
  | none => none
  | some lines =>
    if line_start < 1 || line_start > (lines.length : Int) then none
    else
      let clamped_end := min line_end (lines.length : Int)
      let selected := (lines.drop (line_start - 1).toNat).take (clamped_end - line_start + 1).toNat
      some (joinWith "\n" (selected.map pyStrip))

/-- `RepoAnalyzer._read_line_from_repo`. -/
def read_line_from_repo (fs : FileSys) (path : String) (line_num : Int) : Option String :=
  read_lines_from_repo fs path line_num line_num

/-- `RepoAnalyzer._parse_evidence_string`: the regex
`^([^:]+):(\d+)(?:-(\d+))?` applied to the stripped string, then the
`MAX_SNIPPET_LINES` clamp, a repository read, and `make_evidence`. -/
def parse_evidence_string (fs : FileSys) (hash : String → String) (ev_str : String) :
    Option Ev :=
  let t := (pyStrip ev_str).toList
  let path_chars := t.takeWhile (fun c => c ≠ ':')
  let rest := t.drop path_chars.length
  if path_chars.isEmpty then none
  else
    match rest with
    | [] => none
    | _colon :: after =>
      let digits1 := after.takeWhile Char.isDigit
      if digits1.isEmpty then none
      else
        let line_start : Int := (natOfDigits digits1 : Int)
        let rest2 := after.drop digits1.length
        let line_end : Int :=
          match rest2 with
          | '-' :: tl =>
            let digits2 := tl.takeWhile Char.isDigit
            if digits2.isEmpty then line_start else (natOfDigits digits2 : Int)
          | _ => line_start
        let line_end :=
          if line_end - line_start > MAX_SNIPPET_LINES then line_start + MAX_SNIPPET_LINES
          else line_end
        match read_lines_from_repo fs (String.mk path_chars) line_start line_end with
        | none => none
        | some snippet => make_evidence hash (String.mk path_chars) line_start line_end snippet

/-- `RepoAnalyzer._verify_single_evidence`: re-read the cited range and compare
the recomputed digest with the stored one. -/
def verify_single_evidence (fs : FileSys) (hash : String → String) (ev : Ev) : Bool :=
  let path := ev.path
  let line_start := ev.line_start
  let line_end := ev.line_end.getD line_start
  let claimed_hash := ev.snippet_hash
  if path == "" || line_start ≤ 0 || claimed_hash == "" then false
  else
    match read_lines_from_repo fs path line_start line_end with
    | none => false
    | some snippet => hash snippet == claimed_hash

/-- An evidence list entry of a raw claims document: either a dictionary or a
bare string (`analyzer._verify_claims_evidence` handles both). -/
inductive EvItem where
  | dict (ev : Ev)
  | str (s : String)
  deriving Repr, DecidableEq

/-- A claim of the raw claims document handed to `_verify_claims_evidence`. -/
structure ClaimIn where
  id : String := ""
  statement : String := ""
  sectionName : String := ""
  evidence : List EvItem := []
  confidence : ℚ := 0
  status : String := ""
  deriving Repr, DecidableEq

/-- One iteration of the evidence loop of `_verify_claims_evidence`: a string
entry is parsed (and dropped when unparsable); a dictionary entry has its
hash recomputed from `line_start` alone and its verified flag stamped. -/
def verify_one_item (fs : FileSys) (hash : String → String) : EvItem → List Ev
  | .str s =>
    match parse_evidence_string fs hash s with
    | some parsed => [parsed]
    | none => []
  | .dict ev =>
    if ev.path != "" && ev.line_start > 0 then
      match read_line_from_repo fs ev.path ev.line_start with
      | some snippet =>
        [{ ev with snippet_hash := hash snippet, snippet_hash_verified := some true }]
      | none => [{ ev with snippet_hash_verified := some false }]
    else [{ ev with snippet_hash_verified := some false }]

/-- The per-claim body of `analyzer._verify_claims_evidence`: rebuild the
evidence list, then cap confidence to 0.20 and mark the claim unverified
when no entry carries a truthy `snippet_hash_verified`. -/
def verify_claim_evidence (fs : FileSys) (hash : String → String) (c : ClaimIn) : Claim :=
  let verified := c.evidence.flatMap (verify_one_item fs hash)
  let has_valid := verified.any (fun e => e.snippet_hash_verified.getD false)
  if ¬ has_valid ∧ c.confidence > 1/5 then
    { id := c.id, statement := c.statement, sectionName := c.sectionName,
      evidence := verified, confidence := 1/5, status := "unverified" }
  else
    { id := c.id, statement := c.statement, sectionName := c.sectionName,
      evidence := verified, confidence := c.confidence, status := c.status }

/-- `analyzer._verify_claims_evidence` over the claims list. -/
def verify_claims_evidence (fs : FileSys) (hash : String → String) (claims : List ClaimIn) :
    List Claim :=
  claims.map (verify_claim_evidence fs hash)

/-! ## `core/adapter.py` — metrics and persistence

Python `round(x, 4)` is embedded as exact round-half-even on rationals
(`float` is modelled by `ℚ` throughout). -/

/-- Round-half-even to the nearest integer. -/
def pyRoundInt (q : ℚ) : ℤ :=
  let n := ⌊q⌋
  let r := q - (n : ℚ)
  if r < 1/2 then n
  else if 1/2 < r then n + 1
  else if n % 2 = 0 then n else n + 1

/-- Python `round(x, 4)`. -/
def pyRound4 (q : ℚ) : ℚ :=
  (pyRoundInt (q * 10000) : ℚ) / 10000

/-- A known-unknown entry (`core/unknowns.py` output shape, consumed by the
adapter metrics and by the diff engine). -/
structure Unknown where
  category : String := ""
  description : String := ""
  status : String := ""
  evidence : List Ev := []
  notes : String := ""
  resolve_with : String := ""
  deriving Repr, DecidableEq, Inhabited

/-- The `completeness: {score, max}` sub-object of the how-to document, the
only part of `howto` that `_build_metrics` reads (`.get` defaults 0 / 100). -/
structure Completeness where
  score : ℚ := 0
  max : ℚ := 100
  deriving Repr, DecidableEq

/-- The metrics namespace built by `adapter._build_metrics`: the three rounded
RCI components, the rounded composite, the DCI v1 score and the null DCI v2
score.  The static label / formula / interpretation strings carry no data and
are omitted. -/
structure Metrics where
  rci_score : ℚ
  claims_coverage : ℚ
  unknowns_coverage : ℚ
  howto_completeness : ℚ
  dci_v1_score : ℚ
  dci_v2_score : Option ℚ
  deriving Repr, DecidableEq

/-- `adapter._build_metrics`.  The `coverage` argument of the source is unused
by the function body and is omitted; `howto` is represented by its
`completeness` sub-object. -/
def build_metrics (claims : List Claim) (known_unknowns : List Unknown)
    (completeness : Completeness) : Metrics :=
  let total_claims := claims.length
  let verified_count := (claims.filter is_verified_claim).length
  let claims_coverage : ℚ :=
    if 0 < total_claims then (verified_count : ℚ) / (total_claims : ℚ) else 0
  let total_categories := known_unknowns.length
  let verified_categories := (known_unknowns.filter (fun u => u.status == "VERIFIED")).length
  let unknowns_coverage : ℚ :=
    if 0 < total_categories then (verified_categories : ℚ) / (total_categories : ℚ) else 0
  let howto_coverage : ℚ :=
    if 0 < completeness.max then completeness.score / completeness.max else 0
  let rci_score := pyRound4 ((claims_coverage + unknowns_coverage + howto_coverage) / 3)
  { rci_score := rci_score
    claims_coverage := pyRound4 claims_coverage
    unknowns_coverage := pyRound4 unknowns_coverage
    howto_completeness := pyRound4 howto_coverage
    dci_v1_score := pyRound4 claims_coverage
    dci_v2_score := none }

/-- A JSON-like value, used to state what `adapter.save_evidence_pack`
writes to disk. -/
inductive PackJson where
  | null : PackJson
  | str (s : String) : PackJson
  | num (q : ℚ) : PackJson
  | bool (b : Bool) : PackJson
  | arr (items : List PackJson) : PackJson
  | obj (fields : List (String × PackJson)) : PackJson
  deriving Inhabited

/-- Key lookup in a JSON object (Python `dict` access; `none` = key absent). -/
def PackJson.getKey : PackJson → String → Option PackJson
  | .obj fields, k => (fields.filter (fun f => f.1 == k)).getLast? |>.map Prod.snd
  | _, _ => none

/-- `adapter.save_evidence_pack`: opens `output_dir / "evidence_pack.v1.json"`
and serialises the pack unconditionally — the function performs no validation
and has no failure path.  The result is the written path paired with the
content written to it. -/
def save_evidence_pack (pack : PackJson) (output_dir : String) : String × PackJson :=
  (output_dir ++ "/evidence_pack.v1.json", pack)

/-! ## `core/render.py` — the score renderings of the two report modes

Python `f"{x:.N%}"` multiplies by 100, rounds half-even to `N` decimal
places and appends a percent sign. -/

/-- Left-pad a digit string with zeros to the requested width. -/
def padZeros (width : Nat) (s : String) : String :=
  String.mk (List.replicate (width - s.length) '0') ++ s

/-- Python percent formatting `f"{q:.prec%}"` for a rational value. -/
def fmtPct (prec : Nat) (q : ℚ) : String :=
  let scaled := q * 100 * ((10 : ℚ) ^ prec)
  let n := pyRoundInt scaled
  let sign := if n < 0 then "-" else ""
  let m := n.natAbs
  let intPart := m / 10 ^ prec
  let fracPart := m % 10 ^ prec
  if prec == 0 then sign ++ toString intPart ++ "%"
  else sign ++ toString intPart ++ "." ++ padZeros prec (toString fracPart) ++ "%"

/-- The slice of an EvidencePack that the score renderings read. -/
structure Pack where
  metrics : Metrics
  deriving Repr, DecidableEq

/-- `render._get_dci`: `pack["metrics"]["dci_v1_claim_visibility"]`, of which
only the score is data. -/
def get_dci_score (pack : Pack) : ℚ :=
  pack.metrics.dci_v1_score

/-- The DCI v1 score text of `render._render_engineer`
(`f"**Score:** {dci_score:.2%}"`, where `dci_score = dci.get("score", 0) or 0`);
this is the formatted percentage inside that line. -/
def engineer_dci_score_text (pack : Pack) : String :=
  fmtPct 2 (get_dci_score pack)

/-- The DCI v1 cell of the executive key-metrics table in
`render._render_executive` (`f"| DCI_v1_claim_visibility | {dci.get('score', 0):.1%} |"`);
this is the formatted percentage inside that cell. -/
def executive_dci_score_text (pack : Pack) : String :=
  fmtPct 1 (get_dci_score pack)

/-! ## `pta_diff.py` — the diff engine

Python dictionaries keyed by strings are embedded as association lists in
which a later binding shadows an earlier one (`dict` comprehension
semantics); `sorted(set(...))` becomes deduplication followed by insertion
sort. -/

/-- Insert into a lexicographically sorted list. -/
def insertSorted (x : String) : List String → List String
  | [] => [x]
  | y :: ys => if x ≤ y then x :: y :: ys else y :: insertSorted x ys

/-- Lexicographic insertion sort. -/
def sortStrings (l : List String) : List String :=
  l.foldr insertSorted []

/-- Python `sorted(set(l))`. -/
def pySortedSet (l : List String) : List String :=
  sortStrings l.dedup

/-- A verified-claim item inside a pack, as the diff engine reads it.  The
`statement` / `description` options model possibly-absent dictionary keys. -/
structure DItem where
  statement : Option String := none
  description : Option String := none
  evidence : List Ev := []
  confidence : ℚ := 0
  deriving Repr, DecidableEq, Inhabited

/-- The dictionary key used by `_diff_verified_items`:
`item.get("statement", item.get("description", ""))`. -/
def itemKey (it : DItem) : String :=
  it.statement.getD (it.description.getD "")

/-- `{key(item): item for item in items}` lookup: the last item with the key. -/
def dictGetItem (items : List DItem) (k : String) : DItem :=
  ((items.filter (fun it => itemKey it == k)).getLast?).getD default

/-- `pta_diff._extract_hashes_from_item`: the set of non-empty snippet hashes,
kept in canonical sorted-deduplicated form so that list equality is set
equality. -/
def extract_hashes_from_item (it : DItem) : List String :=
  pySortedSet (it.evidence.filterMap
    (fun ev => if ev.snippet_hash != "" then some ev.snippet_hash else none))

/-- A `changed` record of `_diff_verified_items`. -/
structure ChangedRec where
  statement : String
  old_hashes : List String
  new_hashes : List String
  confidence_delta : ℚ
  deriving Repr, DecidableEq

/-- The per-section result of `_diff_verified_items`. -/
structure VDiff where
  added : List DItem
  removed : List DItem
  changed : List ChangedRec
  summary : String
  deriving Repr, DecidableEq

/-- `pta_diff._diff_verified_items`. -/
def diff_verified_items (items_a items_b : List DItem) : VDiff :=
  let keys_a := items_a.map itemKey
  let keys_b := items_b.map itemKey
  let added := ((pySortedSet keys_b).filter (fun k => ! keys_a.contains k)).map
    (dictGetItem items_b)
  let removed := ((pySortedSet keys_a).filter (fun k => ! keys_b.contains k)).map
    (dictGetItem items_a)
  let changed := ((pySortedSet keys_a).filter (fun k => keys_b.contains k)).filterMap
    (fun k =>
      let a_hashes := extract_hashes_from_item (dictGetItem items_a k)
      let b_hashes := extract_hashes_from_item (dictGetItem items_b k)
      if a_hashes ≠ b_hashes then
        some { statement := k, old_hashes := a_hashes, new_hashes := b_hashes,
               confidence_delta :=
                 pyRound4 ((dictGetItem items_b k).confidence - (dictGetItem items_a k).confidence) }
      else none)
  { added := added, removed := removed, changed := changed,
    summary := "+" ++ toString added.length ++ " -" ++ toString removed.length ++
      " ~" ++ toString changed.length }

/-- `{u.get("category", ""): u for u in unknowns}` status lookup with the
`"MISSING"` default of `_diff_unknowns`. -/
def unknownStatus (unknowns : List Unknown) (cat : String) : String :=
  match (unknowns.filter (fun u => u.category == cat)).getLast? with
  | some u => u.status
  | none => "MISSING"

/-- A status-change record of `_diff_unknowns`. -/
structure StatusChange where
  category : String
  old_status : String
  new_status : String
  deriving Repr, DecidableEq

/-- The result of `_diff_unknowns`. -/
structure UDiff where
  status_changes : List StatusChange
  summary : String
  deriving Repr, DecidableEq

/-- `pta_diff._diff_unknowns`. -/
def diff_unknowns (unknowns_a unknowns_b : List Unknown) : UDiff :=
  let cats := pySortedSet (unknowns_a.map (·.category) ++ unknowns_b.map (·.category))
  let status_changes := cats.filterMap (fun cat =>
    let a_status := unknownStatus unknowns_a cat
    let b_status := unknownStatus unknowns_b cat
    if a_status ≠ b_status then
      some { category := cat, old_status := a_status, new_status := b_status }
    else none)
  { status_changes := status_changes,
    summary := toString status_changes.length ++ " category status change(s)" }

/-- The result of `_diff_hashes` (set operations in canonical sorted form). -/
structure HDiff where
  added : List String
  removed : List String
  unchanged : Nat
  summary : String
  deriving Repr, DecidableEq

/-- `pta_diff._diff_hashes`. -/
def diff_hashes (hashes_a hashes_b : List String) : HDiff :=
  let added := pySortedSet (hashes_b.filter (fun h => ! hashes_a.contains h))
  let removed := pySortedSet (hashes_a.filter (fun h => ! hashes_b.contains h))
  let unchanged := (pySortedSet (hashes_a.filter (fun h => hashes_b.contains h))).length
  { added := added, removed := removed, unchanged := unchanged,
    summary := "+" ++ toString added.length ++ " -" ++ toString removed.length ++
      " =" ++ toString unchanged }

/-- The `metrics.dci` object read by `_diff_dci`.  Packs built by
`build_evidence_pack` carry no `dci` key at all, which `diff_packs` models as
`none` (so every `.get` falls back to its default). -/
structure DciObj where
  score : ℚ := 0
  components : List (String × ℚ) := []
  deriving Repr, DecidableEq

/-- `dci.get("score", 0)` over a possibly-missing `dci` object. -/
def dciScoreOf (dci : Option DciObj) : ℚ :=
  (dci.map (·.score)).getD 0

/-- `components.get(k, 0)`. -/
def componentOf (dci : Option DciObj) (k : String) : ℚ :=
  match dci with
  | none => 0
  | some d => (((d.components.filter (fun p => p.1 == k)).getLast?).map Prod.snd).getD 0

/-- The result of `_diff_dci`. -/
structure DciDelta where
  old_score : ℚ
  new_score : ℚ
  delta : ℚ
  direction : String
  component_deltas : List (String × ℚ)
  deriving Repr, DecidableEq

/-- `pta_diff._diff_dci`. -/
def diff_dci (dci_a dci_b : Option DciObj) : DciDelta :=
  let score_a := dciScoreOf dci_a
  let score_b := dciScoreOf dci_b
  let delta := pyRound4 (score_b - score_a)
  let all_keys := pySortedSet
    (((dci_a.map (·.components)).getD []).map Prod.fst ++
     ((dci_b.map (·.components)).getD []).map Prod.fst)
  let component_deltas := all_keys.map (fun k =>
    (k, pyRound4 (componentOf dci_b k - componentOf dci_a k)))
  { old_score := score_a, new_score := score_b, delta := delta,
    direction := if delta > 0 then "improved" else if delta < 0 then "declined" else "unchanged",
    component_deltas := component_deltas }

/-- An EvidencePack as the diff engine reads it. -/
structure DiffPack where
  run_id : Option String := none
  generated_at : Option String := none
  verified : List (String × List DItem) := []
  unknowns : List Unknown := []
  snippets : List String := []
  dci : Option DciObj := none
  deriving Repr, DecidableEq

/-- `pack["verified"].get(section, [])` (a non-list value cannot occur in the
typed embedding, so the `isinstance` guard of the source is vacuous). -/
def sectionItems (p : DiffPack) (s : String) : List DItem :=
  (((p.verified.filter (fun e => e.1 == s)).getLast?).map Prod.snd).getD []

/-- The result of `diff_packs`. -/
structure DiffResult where
  pack_a_run_id : Option String
  pack_b_run_id : Option String
  verified_sections : List (String × VDiff)
  unknowns : UDiff
  snippet_hashes : HDiff
  dci_delta : DciDelta
  deriving Repr, DecidableEq

/-- `pta_diff.diff_packs`. -/
def diff_packs (pack_a pack_b : DiffPack) : DiffResult :=
  let all_sections := pySortedSet (pack_a.verified.map Prod.fst ++ pack_b.verified.map Prod.fst)
  { pack_a_run_id := pack_a.run_id
    pack_b_run_id := pack_b.run_id
    verified_sections := all_sections.map
      (fun s => (s, diff_verified_items (sectionItems pack_a s) (sectionItems pack_b s)))
    unknowns := diff_unknowns pack_a.unknowns pack_b.unknowns
    snippet_hashes := diff_hashes pack_a.snippets pack_b.snippets
    dci_delta := diff_dci pack_a.dci pack_b.dci }

/-! ## `core/unknowns.py` — the known-unknowns registry

Each `re`-pattern of `_UPGRADE_RULES` is compiled by hand to an executable
matcher.  Every pattern is `$`-anchored and uses `(^|/)` as its component
boundary, so `pattern.search(f)` reduces to checks on the final `/`-separated
component of `f` (lowercased for the `re.I` patterns) or on a suffix of `f`
for the unanchored-start patterns. -/

def KNOWN_UNKNOWN_CATEGORIES_V1 : List String :=
  ["tls_termination", "encryption_at_rest", "secret_management", "deployment_topology",
   "runtime_iam", "logging_sink", "monitoring_alerting", "backup_retention", "data_residency"]

def CATEGORY_DESCRIPTIONS : List (String × String) :=
  [("tls_termination", "Whether TLS/SSL is terminated and how (reverse proxy, load balancer, application-level)"),
   ("encryption_at_rest", "Whether data at rest is encrypted (database, file storage, backups)"),
   ("secret_management", "How secrets/credentials are stored, rotated, and accessed at runtime"),
   ("deployment_topology", "Production deployment architecture (containers, VMs, serverless, regions)"),
   ("runtime_iam", "Identity and access management at runtime (service accounts, role-based access)"),
   ("logging_sink", "Where application and infrastructure logs are collected and retained"),
   ("monitoring_alerting", "Whether monitoring/alerting is configured (health checks, uptime, error rates)"),
   ("backup_retention", "Backup strategy, frequency, and retention policy for data stores"),
   ("data_residency", "Where data is physically stored and whether data residency requirements are met")]

def CATEGORY_RESOLVE_WITH : List (String × String) :=
  [("tls_termination", "Add TLS config: k8s Ingress with tls section, nginx.conf with ssl_certificate, Caddyfile with tls directive, or Terraform aws_acm_certificate resource"),
   ("encryption_at_rest", "Add encryption config: Terraform aws_db_instance with storage_encrypted=true, k8s StorageClass with encrypted parameters, or pgcrypto extension usage"),
   ("secret_management", "Add secret management: k8s ExternalSecret/SealedSecret manifests, Vault agent config, or Terraform vault_generic_secret resources"),
   ("deployment_topology", "Add deployment artifacts: Dockerfile, docker-compose.yml, k8s Deployment manifests, Terraform main.tf, Helm Chart.yaml, or fly.toml"),
   ("runtime_iam", "Add IAM config: k8s ServiceAccount/RBAC manifests, Terraform aws_iam_role resources, or OPA policy files"),
   ("logging_sink", "Add logging config: Fluentd/Logstash config files, k8s logging sidecar manifests, or Terraform CloudWatch log group resources"),
   ("monitoring_alerting", "Add monitoring config: Prometheus rules YAML, Grafana dashboard JSON, k8s ServiceMonitor manifests, Terraform CloudWatch alarm resources, or Sentry config"),
   ("backup_retention", "Add backup config: Terraform aws_backup_plan resources, k8s CronJob backup manifests, or pg_dump/mongodump cron scripts with retention"),
   ("data_residency", "Add residency config: Terraform provider region constraints, k8s node affinity with topology labels, or documented data residency policy")]

/-- `dict.get(key, "")` over the static category tables. -/
def tableGet (table : List (String × String)) (key : String) : String :=
  (((table.filter (fun p => p.1 == key)).getLast?).map Prod.snd).getD ""

/-- An upgrade rule: artifact label, the compiled `file_exact` matcher and the
optional content probe.  The probe is carried but, like in the source, never
evaluated (the artifact detectors are not implemented). -/
structure URule where
  artifact : String
  matchesFile : String → Bool
  content_probe : Option String := none

/-- The lowercased final path component (for the `re.I` component patterns). -/
def lowBase (f : String) : String :=
  lowerStr (osBasename f)

/-- Matcher for a case-insensitive `(^|/)name\.(ext|...)$` pattern: the final
component, lowercased, is one of the listed file names. -/
def baseIn (names : List String) (f : String) : Bool :=
  names.contains (lowBase f)

/-- `_UPGRADE_RULES`, with each regex compiled to an executable matcher. -/
def UPGRADE_RULES : List (String × List URule) :=
  [("tls_termination",
    [{ artifact := "k8s Ingress with TLS",
       matchesFile := baseIn ["ingress.yaml", "ingress.yml", "ingress.json"],
       content_probe := some "tls" },
     { artifact := "Terraform ACM certificate",
       matchesFile := fun f => pyEndsWith f ".tf",
       content_probe := some "aws_acm_certificate" },
     { artifact := "Caddyfile with TLS",
       matchesFile := fun f => osBasename f == "Caddyfile" },
     { artifact := "nginx SSL config",
       matchesFile := baseIn ["nginx.conf"],
       content_probe := some "ssl_certificate" }]),
   ("encryption_at_rest",
    [{ artifact := "Terraform aws_db_instance with storage_encrypted",
       matchesFile := fun f => pyEndsWith f ".tf",
       content_probe := some "storage_encrypted" },
     { artifact := "Terraform aws_rds_cluster with storage_encrypted",
       matchesFile := fun f => pyEndsWith f ".tf",
       content_probe := some "storage_encrypted" },
     { artifact := "k8s StorageClass with encryption",
       matchesFile := baseIn ["storageclass.yaml", "storageclass.yml", "storageclass.json"],
       content_probe := some "encrypted" }]),
   ("secret_management",
    [{ artifact := "k8s ExternalSecret manifest",
       matchesFile := baseIn ["externalsecret.yaml", "externalsecret.yml", "externalsecret.json",
         "externalsecrets.yaml", "externalsecrets.yml", "externalsecrets.json"] },
     { artifact := "k8s SealedSecret manifest",
       matchesFile := baseIn ["sealedsecret.yaml", "sealedsecret.yml", "sealedsecret.json",
         "sealedsecrets.yaml", "sealedsecrets.yml", "sealedsecrets.json"] },
     { artifact := "Terraform vault_generic_secret",
       matchesFile := fun f => pyEndsWith f ".tf",
       content_probe := some "vault_generic_secret" },
     { artifact := "Vault agent config",
       matchesFile := baseIn ["vault-agent.hcl", "vault-agent.json"] }]),
   ("deployment_topology",
    [{ artifact := "Dockerfile", matchesFile := fun f => osBasename f == "Dockerfile" },
     { artifact := "docker-compose.yml",
       matchesFile := baseIn ["docker-compose.yaml", "docker-compose.yml"] },
     { artifact := "k8s Deployment manifest",
       matchesFile := baseIn ["deployment.yaml", "deployment.yml", "deployment.json"] },
     { artifact := "Terraform main.tf", matchesFile := fun f => osBasename f == "main.tf" },
     { artifact := "Helm Chart.yaml", matchesFile := fun f => osBasename f == "Chart.yaml" },
     { artifact := "fly.toml", matchesFile := fun f => osBasename f == "fly.toml" },
     { artifact := "Procfile", matchesFile := fun f => osBasename f == "Procfile" }]),
   ("runtime_iam",
    [{ artifact := "k8s ServiceAccount manifest",
       matchesFile := baseIn ["serviceaccount.yaml", "serviceaccount.yml", "serviceaccount.json"] },
     { artifact := "k8s RBAC manifest",
       matchesFile := baseIn ["role.yaml", "role.yml", "role.json",
         "clusterrole.yaml", "clusterrole.yml", "clusterrole.json",
         "rolebinding.yaml", "rolebinding.yml", "rolebinding.json",
         "clusterrolebinding.yaml", "clusterrolebinding.yml", "clusterrolebinding.json"] },
     { artifact := "Terraform IAM role",
       matchesFile := fun f => pyEndsWith f ".tf",
       content_probe := some "aws_iam_role" },
     { artifact := "OPA policy", matchesFile := fun f => pyEndsWith f ".rego" }]),
   ("logging_sink",
    [{ artifact := "Fluentd config",
       matchesFile := baseIn ["fluentd.conf", "fluentd.yaml", "fluentd.yml",
         "fluentbit.conf", "fluentbit.yaml", "fluentbit.yml"] },
     { artifact := "Logstash config",
       matchesFile := baseIn ["logstash.conf", "logstash.yaml", "logstash.yml"] },
     { artifact := "Terraform CloudWatch log group",
       matchesFile := fun f => pyEndsWith f ".tf",
       content_probe := some "aws_cloudwatch_log_group" }]),
   ("monitoring_alerting",
    [{ artifact := "Prometheus rules",
       matchesFile := baseIn ["prometheus.yaml", "prometheus.yml", "prometheus.rules"] },
     { artifact := "k8s ServiceMonitor",
       matchesFile := baseIn ["servicemonitor.yaml", "servicemonitor.yml", "servicemonitor.json"] },
     { artifact := "Grafana dashboard",
       matchesFile := fun f => strContains (lowerStr f) "grafana" && pyEndsWith (lowerStr f) ".json" },
     { artifact := "Terraform CloudWatch alarm",
       matchesFile := fun f => pyEndsWith f ".tf",
       content_probe := some "aws_cloudwatch_metric_alarm" },
     { artifact := "Sentry config",
       matchesFile := fun f => lowBase f == ".sentryclirc" ||
         pyEndsWith (lowerStr f) "sentry.yaml" || pyEndsWith (lowerStr f) "sentry.yml" ||
         pyEndsWith (lowerStr f) "sentry.json" || pyEndsWith (lowerStr f) "sentry.properties" }]),
   ("backup_retention",
    [{ artifact := "Terraform backup plan",
       matchesFile := fun f => pyEndsWith f ".tf",
       content_probe := some "aws_backup_plan" },
     { artifact := "k8s CronJob backup",
       matchesFile := baseIn ["cronjob.yaml", "cronjob.yml", "cronjob.json"],
       content_probe := some "backup" }]),
   ("data_residency",
    [{ artifact := "Terraform provider region constraint",
       matchesFile := fun f => pyEndsWith f ".tf",
       content_probe := some "region" }])]

/-- `unknowns._find_artifact_files_in_index`: rule-major scan of the index,
each file reported at most once. -/
def find_artifact_files_in_index (file_index : List String) (rules : List URule) :
    List String :=
  rules.foldl
    (fun matched rule =>
      matched ++ (file_index.filter (fun f => rule.matchesFile f && ! matched.contains f)))
    []

/-- The rule list of a category (`_UPGRADE_RULES.get(category, [])`). -/
def rulesFor (category : String) : List URule :=
  (((UPGRADE_RULES.filter (fun p => p.1 == category)).getLast?).map Prod.snd).getD []

/-- `unknowns.compute_known_unknowns`.  The `howto`, `claims`, `coverage` and
`project_root` parameters are accepted (with arbitrary types, as in the
dynamically typed source) and, exactly as in the source body, never read. -/
def compute_known_unknowns {H C V : Type} (_howto : H) (_claims : C) (_coverage : V)
    (file_index : List String) (_project_root : Option String) : List Unknown :=
  KNOWN_UNKNOWN_CATEGORIES_V1.map (fun category =>
    let rules := rulesFor category
    let artifact_files := find_artifact_files_in_index file_index rules
    let notes :=
      if ¬ artifact_files.isEmpty then
        "Candidate artifact files found (" ++ joinWith ", " (artifact_files.take 3) ++
          ") but artifact detector not yet implemented — cannot read/hash/verify file content"
      else "No matching infrastructure/config artifacts found in file index"
    { category := category
      description := tableGet CATEGORY_DESCRIPTIONS category
      status := "UNKNOWN"
      evidence := []
      notes := notes
      resolve_with := tableGet CATEGORY_RESOLVE_WITH category })

/-! ## Concrete fixtures used by witnesses and counterexamples -/

/-- A two-line repository file `f.py` (with indentation, so the per-line trim
is exercised). -/
def fsRT : FileSys :=
  fun p => if p == "f.py" then some ["  a ", " b\t"] else none

/-- A concrete stand-in digest function (any deterministic function works). -/
def hashRT : String → String :=
  fun s => "h" ++ s

/-- The anchor `make_evidence hashRT "f.py" 1 2 "a\nb"` produces. -/
def evRT : Ev :=
  { path := "f.py", line_start := 1, line_end := some 2,
    snippet_hash := "ha\nb", display := "f.py:1-2" }

/-- A repository that happens to contain a file named like a generated
artifact. -/
def fsGen : FileSys :=
  fun p => if p == "claims.json" then some ["x"] else none

/-- Digest stand-in for the re-validation counterexample. -/
def hashGen : String → String :=
  fun _ => "deadbeef"

/-- A claim whose single anchor cites `claims.json` with high confidence. -/
def claimGen : ClaimIn :=
  { evidence := [.dict { path := "claims.json", line_start := 1 }], confidence := 9/10 }

/-- A claim with no evidence at all and high confidence. -/
def claimBare : ClaimIn :=
  { evidence := [], confidence := 9/10 }

/-- A verified claim: one hash-verified anchor citing a real source file. -/
def claimV : Claim :=
  { statement := "uses fastapi", sectionName := "deps",
    evidence := [{ path := "a.py", line_start := 1, snippet_hash := "abc123",
                   snippet_hash_verified := some true }],
    confidence := 9/10 }

/-- An unverified claim: no evidence. -/
def claimU : Claim :=
  { statement := "unbacked", sectionName := "deps", evidence := [], confidence := 1/10 }

/-- A claims list with 17 claims of which 15 are verified. -/
def claims17 : List Claim :=
  List.replicate 15 claimV ++ List.replicate 2 claimU

/-- The pack built over `claims17` (metric slice). -/
def pack17 : Pack :=
  { metrics := build_metrics claims17 [] { score := 62, max := 100 } }

/-- A pack with one verified section, one unknown and a dci object, for the
diff-engine witness. -/
def dpA : DiffPack :=
  { run_id := some "r1", generated_at := some "t1",
    verified := [("deps", [{ statement := some "uses fastapi",
                             evidence := [{ path := "a.py", line_start := 1,
                                            snippet_hash := "abc123",
                                            snippet_hash_verified := some true }],
                             confidence := 9/10 }])],
    unknowns := [{ category := "tls_termination", status := "UNKNOWN" }],
    snippets := ["abc123"],
    dci := some { score := 1/2, components := [("claims_coverage", 1/2)] } }

/-- The EvidencePack dictionary of the persistence counterexample: it lacks
the `coverage` field (and everything else but the version). -/
def packNoCoverage : PackJson :=
  .obj [("evidence_pack_version", .str "1.0")]

/-! ## Helper lemmas -/

theorem evidence_tier_of_generated (ev : Ev) (h : is_generated_artifact ev.path = true) :
    evidence_tier ev = "" := by
  simp [evidence_tier, h]

theorem is_evidence_verified_v1_iff (ev : Ev) :
    is_evidence_verified_v1 ev = true ↔ evidence_tier ev = VERIFICATION_TIER_HASH := by
  simp [is_evidence_verified_v1]

theorem not_generated_of_tier_hash (ev : Ev)
    (h : evidence_tier ev = VERIFICATION_TIER_HASH) :
    is_generated_artifact ev.path = false := by
  rcases hg : is_generated_artifact ev.path with _ | _
  · rfl
  · rw [evidence_tier_of_generated ev hg] at h
    simp [VERIFICATION_TIER_HASH] at h

theorem snippet_hash_verified_of_tier_hash (ev : Ev)
    (h : evidence_tier ev = VERIFICATION_TIER_HASH) :
    ev.snippet_hash_verified = some true := by
  rw [evidence_tier] at h
  split at h
  · exact absurd h (by decide)
  · split at h
    · rename_i hc
      rw [Bool.and_eq_true, Bool.and_eq_true] at hc
      obtain ⟨⟨-, hv⟩, -⟩ := hc
      exact eq_of_beq hv
    · split at h <;> exact absurd h (by decide)

/-! ## Claims -/

/-- C1: a claim all of whose evidence anchors cite generated output files is
never verified, whatever hash fields the anchors carry; and a claim is
verified exactly when some anchor reaches the HASH tier, which is never a
circular (generated-artifact) anchor. -/
theorem C1_circular_claims_never_verified (c : Claim) :
    ((∀ ev ∈ c.evidence, is_generated_artifact ev.path = true) →
      is_verified_claim c = false) ∧
    (is_verified_claim c = true ↔
      ∃ ev ∈ c.evidence, evidence_tier ev = VERIFICATION_TIER_HASH ∧
        is_generated_artifact ev.path = false) := by
  have hiff : is_verified_claim c = true ↔
      ∃ ev ∈ c.evidence, evidence_tier ev = VERIFICATION_TIER_HASH := by
    rw [is_verified_claim, List.any_eq_true]
    constructor
    · rintro ⟨ev, hev, hver⟩
      exact ⟨ev, hev, (is_evidence_verified_v1_iff ev).mp hver⟩
    · rintro ⟨ev, hev, htier⟩
      exact ⟨ev, hev, (is_evidence_verified_v1_iff ev).mpr htier⟩
  constructor
  · intro hall
    rcases hv : is_verified_claim c with _ | _
    · rfl
    · obtain ⟨ev, hev, htier⟩ := hiff.mp hv
      rw [evidence_tier_of_generated ev (hall ev hev)] at htier
      exact absurd htier (by decide)
  · rw [hiff]
    constructor
    · rintro ⟨ev, hev, htier⟩
      exact ⟨ev, hev, htier, not_generated_of_tier_hash ev htier⟩
    · rintro ⟨ev, hev, htier, -⟩
      exact ⟨ev, hev, htier⟩

/-- Witness for C1: a claim whose only anchor cites a generated output file
under `out/` with a non-empty hash and `snippet_hash_verified = true` is not
verified. -/
theorem C1_witness :
    is_verified_claim
      { evidence := [{ path := "out/17/evidence_pack.v1.json",
                       line_start := 1, snippet_hash := "abc123",
                       snippet_hash_verified := some true }] } = false :=
  (C1_circular_claims_never_verified _).1 (by decide)

/-- C4 counterexample: `packs/notes.txt` lies inside a `packs/` directory but
is not classified as a generated artifact, and a hash-verified anchor citing
it reaches the HASH tier — the directory rule alone rejects nothing. -/
theorem C4_counterexample :
    is_generated_artifact "packs/notes.txt" = false ∧
    evidence_tier { path := "packs/notes.txt", line_start := 1,
                    snippet_hash := "abc123", snippet_hash_verified := some true } =
      VERIFICATION_TIER_HASH := by
  constructor
  · decide
  · decide

/-- C4 (amended): an anchor whose final path component is one of the known
generated-artifact file names — in particular any such file inside a `packs/`
or `out/` directory — is given no trust tier, regardless of its hash fields. -/
theorem C4_generated_name_no_tier (ev : Ev)
    (h : GENERATED_ARTIFACT_PATTERNS.contains (osBasename ev.path) = true) :
    evidence_tier ev = "" := by
  apply evidence_tier_of_generated
  rw [is_generated_artifact]
  have hpath : (ev.path == "") = false := by
    rcases hp : (ev.path == "") with _ | _
    · rfl
    · rw [beq_iff_eq] at hp
      rw [hp] at h
      have : osBasename "" = "" := rfl
      rw [this] at h
      simp [GENERATED_ARTIFACT_PATTERNS] at h
  simp only [hpath, Bool.false_eq_true, if_false, h, if_true]

/-- Witness for C4 (amended): an anchor citing `packs/claims.json` — a
generated-artifact name inside a `packs/` directory — gets no tier even with
a hash and `snippet_hash_verified = true`. -/
theorem C4_witness :
    evidence_tier { path := "packs/claims.json", line_start := 1,
                    snippet_hash := "abc123", snippet_hash_verified := some true } = "" :=
  C4_generated_name_no_tier _ (by decide)

/-- C2: evaluating `save_evidence_pack` at a pack that lacks the `coverage`
field: the function validates nothing and unconditionally writes the pack to
`<output_dir>/evidence_pack.v1.json` — no error is raised and the file on
disk is exactly the invalid pack. -/
theorem C2_save_without_validation :
    (save_evidence_pack packNoCoverage "out").1 = "out/evidence_pack.v1.json" ∧
    (save_evidence_pack packNoCoverage "out").2 = packNoCoverage ∧
    (save_evidence_pack packNoCoverage "out").2.getKey "coverage" = none :=
  ⟨rfl, rfl, rfl⟩

/-- C3: hash round-trip.  Any snippet anchor produced over an existing file
and in-range line numbers (a successful repository read fed through
`make_evidence`) re-verifies: `_verify_single_evidence` re-reads the same
cited range with the same per-line trim normalization, so the recomputed
digest equals the stored one.  The range may span any number of lines. -/
theorem C3_hash_round_trip (fs : FileSys) (hash : String → String) (path : String)
    (line_start line_end : Int) (snippet : String) (ev : Ev)
    (hread : read_lines_from_repo fs path line_start line_end = some snippet)
    (hmk : make_evidence hash path line_start line_end snippet = some ev)
    (hpath : path ≠ "")
    (hhash : hash snippet ≠ "") :
    verify_single_evidence fs hash ev = true := by
  rw [make_evidence] at hmk
  split at hmk
  · exact absurd hmk (by simp)
  · rename_i hrange
    rw [Bool.or_eq_true, not_or] at hrange
    obtain ⟨hls, -⟩ := hrange
    rw [decide_eq_true_eq, not_lt] at hls
    obtain rfl := Option.some.inj hmk
    rw [verify_single_evidence]
    simp only [Option.getD_some]
    rw [if_neg, hread]
    · simp
    · intro hcond
      rw [Bool.or_eq_true, Bool.or_eq_true] at hcond
      rcases hcond with (hc | hc) | hc
      · exact hpath (by simpa using hc)
      · rw [decide_eq_true_eq] at hc
        omega
      · exact hhash (by simpa using hc)

/-- Witness for C3: the round trip on a concrete two-line anchor over
`fsRT`. -/
theorem C3_witness : verify_single_evidence fsRT hashRT evRT = true :=
  C3_hash_round_trip fsRT hashRT "f.py" 1 2 "a\nb" evRT
    (by decide) (by decide) (by decide) (by decide)

/-- C8 counterexample: after re-validation, a claim whose only anchor cites
the generated artifact `claims.json` (readable in the repository) keeps its
confidence 0.9 > 0.20 even though none of its anchors reaches the HASH tier
(the anchor is circular, so its tier is empty). -/
theorem C8_counterexample :
    ((verify_claims_evidence fsGen hashGen [claimGen]).map Claim.confidence = [9/10]) ∧
    ((verify_claims_evidence fsGen hashGen [claimGen]).map
        (fun c => c.evidence.any is_evidence_verified_v1) = [false]) ∧
    ((1/5 : ℚ) < 9/10) := by
  refine ⟨by with_unfolding_all decide, by with_unfolding_all decide, by norm_num⟩

/-- C8 (amended): after re-validation a claim is capped at confidence 0.20
unless some rebuilt anchor carries a truthy `snippet_hash_verified` flag (the
flag, not the HASH tier, is what the code tests — see the counterexample);
and a claim with at least one HASH-tier anchor does keep its confidence,
since a HASH-tier anchor always carries that flag. -/
theorem C8_confidence_cap (fs : FileSys) (hash : String → String) (c : ClaimIn) :
    ((verify_claim_evidence fs hash c).evidence.any
        (fun e => e.snippet_hash_verified.getD false) = false →
      (verify_claim_evidence fs hash c).confidence ≤ 1/5) ∧
    ((verify_claim_evidence fs hash c).evidence.any is_evidence_verified_v1 = true →
      (verify_claim_evidence fs hash c).confidence = c.confidence) := by
  have hev : (verify_claim_evidence fs hash c).evidence =
      c.evidence.flatMap (verify_one_item fs hash) := by
    rw [verify_claim_evidence]
    split <;> rfl
  constructor
  · intro hnone
    rw [hev] at hnone
    rw [verify_claim_evidence]
    split
    · exact le_refl _
    · rename_i hcond
      have hx : ¬ ((c.evidence.flatMap (verify_one_item fs hash)).any
          (fun e => e.snippet_hash_verified.getD false) = true) := by
        rw [hnone]
        simp
      have hy : ¬ c.confidence > 1/5 := fun hy => hcond ⟨hx, hy⟩
      exact not_lt.mp hy
  · intro hsome
    rw [hev] at hsome
    obtain ⟨e, he1, he2⟩ := List.any_eq_true.mp hsome
    have hflag : e.snippet_hash_verified = some true :=
      snippet_hash_verified_of_tier_hash e ((is_evidence_verified_v1_iff e).mp he2)
    have hvalid : (c.evidence.flatMap (verify_one_item fs hash)).any
        (fun e => e.snippet_hash_verified.getD false) = true :=
      List.any_eq_true.mpr ⟨e, he1, by rw [hflag]; rfl⟩
    rw [verify_claim_evidence]
    rw [if_neg (fun hcnd => hcnd.1 hvalid)]

/-- Witness for C8 (amended): a claim with no evidence and confidence 0.9 is
capped to at most 0.20 by re-validation. -/
theorem C8_witness :
    (verify_claim_evidence fsGen hashGen claimBare).confidence ≤ 1/5 :=
  (C8_confidence_cap fsGen hashGen claimBare).1 (by with_unfolding_all decide)

/-! ### Rounding and ratio bounds -/

theorem floor_le_pyRoundInt (q : ℚ) : ⌊q⌋ ≤ pyRoundInt q := by
  simp only [pyRoundInt]
  split_ifs <;> omega

theorem pyRoundInt_le_ceil (q : ℚ) : pyRoundInt q ≤ ⌈q⌉ := by
  have hfc : ⌊q⌋ ≤ ⌈q⌉ := Int.floor_le_ceil q
  have key : (1:ℚ)/2 ≤ q - (⌊q⌋ : ℚ) → ⌊q⌋ + 1 ≤ ⌈q⌉ := by
    intro hlt
    have : (⌊q⌋ : ℚ) < q := by linarith
    exact Int.add_one_le_ceil_iff.mpr this
  simp only [pyRoundInt]
  split_ifs with h1 h2 h3
  · exact hfc
  · exact key (le_of_lt h2)
  · exact hfc
  · exact key (not_lt.mp h1)

theorem pyRoundInt_nonneg (q : ℚ) (h : 0 ≤ q) : 0 ≤ pyRoundInt q :=
  le_trans (Int.floor_nonneg.mpr h) (floor_le_pyRoundInt q)

theorem pyRound4_bounds (q : ℚ) (h0 : 0 ≤ q) (h1 : q ≤ 1) :
    0 ≤ pyRound4 q ∧ pyRound4 q ≤ 1 := by
  rw [pyRound4]
  constructor
  · apply div_nonneg _ (by norm_num)
    have h : (0:ℤ) ≤ pyRoundInt (q * 10000) := pyRoundInt_nonneg _ (by positivity)
    exact_mod_cast h
  · rw [div_le_one (by norm_num)]
    have hle : pyRoundInt (q * 10000) ≤ ⌈q * 10000⌉ := pyRoundInt_le_ceil _
    have hc : ⌈q * 10000⌉ ≤ (10000 : ℤ) := Int.ceil_le.mpr (by push_cast; linarith)
    have h : pyRoundInt (q * 10000) ≤ (10000 : ℤ) := le_trans hle hc
    exact_mod_cast h

theorem ratio01 (v t : Nat) (hvt : v ≤ t) :
    0 ≤ (if 0 < t then (v:ℚ)/(t:ℚ) else 0) ∧ (if 0 < t then (v:ℚ)/(t:ℚ) else 0) ≤ 1 := by
  split_ifs with h
  · constructor
    · positivity
    · rw [div_le_one (by exact_mod_cast h)]
      exact_mod_cast hvt
  · norm_num

/-- C5 (amended): provided the caller-supplied how-to completeness rubric is
consistent (`0 ≤ score ≤ max`), each of the three reported components lies in
[0,1] and the composite (their mean rounded to 4 decimal places) lies in
[0,1].  Without that hypothesis the how-to ratio and the composite can exceed
1 (see the counterexample). -/
theorem C5_metrics_bounded (claims : List Claim) (known_unknowns : List Unknown)
    (comp : Completeness) (h0 : 0 ≤ comp.score) (h1 : comp.score ≤ comp.max) :
    (0 ≤ (build_metrics claims known_unknowns comp).claims_coverage ∧
      (build_metrics claims known_unknowns comp).claims_coverage ≤ 1) ∧
    (0 ≤ (build_metrics claims known_unknowns comp).unknowns_coverage ∧
      (build_metrics claims known_unknowns comp).unknowns_coverage ≤ 1) ∧
    (0 ≤ (build_metrics claims known_unknowns comp).howto_completeness ∧
      (build_metrics claims known_unknowns comp).howto_completeness ≤ 1) ∧
    (0 ≤ (build_metrics claims known_unknowns comp).rci_score ∧
      (build_metrics claims known_unknowns comp).rci_score ≤ 1) := by
  have hcc := ratio01 (claims.filter is_verified_claim).length claims.length
    (List.length_filter_le _ _)
  have huc := ratio01 (known_unknowns.filter (fun u => u.status == "VERIFIED")).length
    known_unknowns.length (List.length_filter_le _ _)
  have hhc : 0 ≤ (if 0 < comp.max then comp.score / comp.max else 0) ∧
      (if 0 < comp.max then comp.score / comp.max else 0) ≤ 1 := by
    split_ifs with h
    · exact ⟨div_nonneg h0 (le_of_lt h), by rw [div_le_one h]; exact h1⟩
    · norm_num
  simp only [build_metrics]
  refine ⟨pyRound4_bounds _ hcc.1 hcc.2, pyRound4_bounds _ huc.1 huc.2,
    pyRound4_bounds _ hhc.1 hhc.2, pyRound4_bounds _ ?_ ?_⟩
  · have := hcc.1; have := huc.1; have := hhc.1
    positivity
  · rw [div_le_one (by norm_num)]
    linarith [hcc.2, huc.2, hhc.2]

/-- C5 counterexample: with a caller-supplied how-to rubric of score 6 out of
max 1, the how-to component is 6 and the composite completeness is 2 — both
outside [0,1], so the unconditional claim is false. -/
theorem C5_counterexample :
    (build_metrics [] [] { score := 6, max := 1 }).howto_completeness = 6 ∧
    (build_metrics [] [] { score := 6, max := 1 }).rci_score = 2 ∧
    ¬ ((build_metrics [] [] { score := 6, max := 1 }).rci_score ≤ 1) := by
  refine ⟨by with_unfolding_all decide, by with_unfolding_all decide,
    by with_unfolding_all decide⟩

/-- Witness for C5 (amended): a rubric of score 1 out of max 2 yields a
composite inside [0,1]. -/
theorem C5_witness :
    0 ≤ (build_metrics [] [] { score := 1, max := 2 }).rci_score ∧
    (build_metrics [] [] { score := 1, max := 2 }).rci_score ≤ 1 :=
  (C5_metrics_bounded [] [] { score := 1, max := 2 } (by norm_num) (by norm_num)).2.2.2

/-- C6 counterexample: over a pack with 17 claims of which 15 are verified,
the engineer report and the executive report do NOT render the visibility
score identically — the engineer mode prints two decimal percentage places,
the executive mode only one. -/
theorem C6_counterexample :
    engineer_dci_score_text pack17 ≠ executive_dci_score_text pack17 := by
  with_unfolding_all decide

/-- C6 (amended): for 15 verified out of 17 total claims the visibility score
is round(15/17, 4) = 0.8824; the engineer report renders it as `88.24%` (two
decimal percentage places) while the executive report renders it as `88.2%`
(one decimal place). -/
theorem C6_visibility_rendering :
    pack17.metrics.dci_v1_score = 8824/10000 ∧
    engineer_dci_score_text pack17 = "88.24%" ∧
    executive_dci_score_text pack17 = "88.2%" := by
  refine ⟨by with_unfolding_all decide, by with_unfolding_all decide,
    by with_unfolding_all decide⟩

/-! ### Sorted-set membership and diff-idempotence lemmas -/

theorem mem_insertSorted {x y : String} {l : List String} :
    x ∈ insertSorted y l ↔ x = y ∨ x ∈ l := by
  induction l with
  | nil => simp [insertSorted]
  | cons z zs ih =>
    rw [insertSorted]
    split_ifs with h
    · simp
    · rw [List.mem_cons, ih, List.mem_cons]
      tauto

theorem mem_sortStrings {x : String} {l : List String} : x ∈ sortStrings l ↔ x ∈ l := by
  induction l with
  | nil => simp [sortStrings]
  | cons y ys ih =>
    rw [show sortStrings (y :: ys) = insertSorted y (sortStrings ys) from rfl,
      mem_insertSorted, ih, List.mem_cons]

theorem mem_pySortedSet {x : String} {l : List String} : x ∈ pySortedSet l ↔ x ∈ l := by
  rw [pySortedSet, mem_sortStrings, List.mem_dedup]

theorem diff_verified_items_self (items : List DItem) :
    (diff_verified_items items items).added = [] ∧
    (diff_verified_items items items).removed = [] ∧
    (diff_verified_items items items).changed = [] := by
  simp only [diff_verified_items]
  refine ⟨?_, ?_, ?_⟩
  · rw [List.map_eq_nil_iff, List.filter_eq_nil_iff]
    intro k hk
    rw [mem_pySortedSet] at hk
    simp [hk]
  · rw [List.map_eq_nil_iff, List.filter_eq_nil_iff]
    intro k hk
    rw [mem_pySortedSet] at hk
    simp [hk]
  · rw [List.filterMap_eq_nil_iff]
    intro k _
    simp

theorem diff_unknowns_self (l : List Unknown) : (diff_unknowns l l).status_changes = [] := by
  simp only [diff_unknowns]
  rw [List.filterMap_eq_nil_iff]
  intro cat _
  simp

theorem pyRound4_zero : pyRound4 0 = 0 := by
  with_unfolding_all decide

theorem diff_dci_self (d : Option DciObj) :
    (diff_dci d d).delta = 0 ∧ (diff_dci d d).direction = "unchanged" := by
  constructor <;> simp [diff_dci, sub_self, pyRound4_zero]

/-- C7: diffing an EvidencePack against itself yields, for every
verified-claim section, empty added / removed / changed lists, no
unknown-category status changes, and a visibility-score delta of zero with
direction "unchanged". -/
theorem C7_diff_self (p : DiffPack) :
    (∀ sd ∈ (diff_packs p p).verified_sections,
       sd.2.added = [] ∧ sd.2.removed = [] ∧ sd.2.changed = []) ∧
    (diff_packs p p).unknowns.status_changes = [] ∧
    (diff_packs p p).dci_delta.delta = 0 ∧
    (diff_packs p p).dci_delta.direction = "unchanged" := by
  refine ⟨?_, diff_unknowns_self p.unknowns, (diff_dci_self p.dci).1,
    (diff_dci_self p.dci).2⟩
  intro sd hsd
  simp only [diff_packs] at hsd
  rw [List.mem_map] at hsd
  obtain ⟨s, -, rfl⟩ := hsd
  exact diff_verified_items_self _

/-- Witness for C7: self-diff of a concrete pack with one verified section,
one unknown category and a dci metric object. -/
theorem C7_witness :
    (diff_packs dpA dpA).unknowns.status_changes = [] ∧
    (diff_packs dpA dpA).dci_delta.delta = 0 ∧
    (diff_packs dpA dpA).dci_delta.direction = "unchanged" :=
  ⟨(C7_diff_self dpA).2.1, (C7_diff_self dpA).2.2.1, (C7_diff_self dpA).2.2.2⟩

/-- C9: the known-unknowns computation emits exactly one entry per category
of the fixed list, every entry has status UNKNOWN and carries no evidence —
so a filename match against an upgrade rule can only surface in the advisory
`notes` text and never upgrades a category to VERIFIED. -/
theorem C9_unknowns_always_unknown {H C V : Type} (howto : H) (claims : C) (coverage : V)
    (file_index : List String) (project_root : Option String) :
    ((compute_known_unknowns howto claims coverage file_index project_root).map
        (fun u => u.category) = KNOWN_UNKNOWN_CATEGORIES_V1) ∧
    (∀ u ∈ compute_known_unknowns howto claims coverage file_index project_root,
       u.status = "UNKNOWN" ∧ u.evidence = []) := by
  constructor
  · rw [compute_known_unknowns, List.map_map]
    exact List.map_id _
  · intro u hu
    rw [compute_known_unknowns, List.mem_map] at hu
    obtain ⟨c, -, rfl⟩ := hu
    exact ⟨rfl, rfl⟩

/-- Witness for C9: the computation over a file index containing `main.tf`
(which matches several upgrade-rule patterns) still emits the nine fixed
categories. -/
theorem C9_witness :
    ((compute_known_unknowns (0 : Nat) "claims" true ["infra/main.tf"] none).map
        (fun u => u.category) = KNOWN_UNKNOWN_CATEGORIES_V1) ∧
    (∀ u ∈ compute_known_unknowns (0 : Nat) "claims" true ["infra/main.tf"] none,
       u.status = "UNKNOWN" ∧ u.evidence = []) :=
  C9_unknowns_always_unknown (0 : Nat) "claims" true ["infra/main.tf"] none

/-- C10: noninterference — the known-unknowns output depends only on the file
index (and the static category tables): any two invocations with the same
`file_index` and arbitrarily different (even differently typed) `howto`,
`claims`, `coverage` and `project_root` arguments return identical lists. -/
theorem C10_unknowns_noninterference {H₁ H₂ C₁ C₂ V₁ V₂ : Type}
    (howto₁ : H₁) (howto₂ : H₂) (claims₁ : C₁) (claims₂ : C₂)
    (coverage₁ : V₁) (coverage₂ : V₂) (file_index : List String)
    (project_root₁ project_root₂ : Option String) :
    compute_known_unknowns howto₁ claims₁ coverage₁ file_index project_root₁ =
      compute_known_unknowns howto₂ claims₂ coverage₂ file_index project_root₂ := rfl

end RepoRecon
